import Mathlib

/-!
Verification of the quality-gate decision engine in `scripts/gatekeeper.py`.

The Python code is shallowly embedded: Python `float` values are modelled as
exact rationals (`ℚ`), Python lists as Lean lists, and the `try/except` around
a single gate's evaluation as an `Except` value.  Comparisons such as
`x >= threshold` where `threshold` may be `None`, a `float`, or a `bool`
follow Python semantics: ordering against `None` raises a `TypeError`
(modelled as `Except.error`), a `bool` coerces to `0`/`1` in an ordering, and
`==` never raises.  Wall-clock timing (`execution_time_s`) is environment
input and is fixed to `0` in the embedding.
-/

namespace Gatekeeper

/-- Decision types of class `DecisionType` in `gatekeeper.py`. -/
inductive DecisionType where
  | PROMOTE
  | MANUAL_QA
  | AGENT_REFINE
deriving DecidableEq, Repr

/-- Dataclass `QualityMetrics`: quality metrics for risk assessment, with the
default values of the Python dataclass. -/
structure QualityMetrics where
  delta_loc : ℚ := 0.0
  novelty : ℚ := 0.0
  ext_dep_delta : ℚ := 0.0
  mutation : ℚ := 0.0
  flakiness : ℚ := 0.0
  static_severity : ℚ := 0.0
  test_coverage : ℚ := 0.0
  devirt_success_rate : ℚ := 0.0
  contract_pass_rate : ℚ := 1.0
  build_success : Bool := true
  parse_time_ms : ℚ := 0.0
  lift_time_ms : ℚ := 0.0
  memory_usage_mb : ℚ := 0.0
deriving DecidableEq, Repr

/-- The Python field `QualityGate.threshold` has type
`Optional[Union[float, bool]]`: it is `None`, a float, or a bool. -/
inductive GateThreshold where
  | none
  | float (q : ℚ)
  | bool (b : Bool)
deriving DecidableEq, Repr

/-- Dataclass `QualityGate`: individual quality gate definition. -/
structure QualityGate where
  name : String
  description : String
  required : Bool := true
  threshold : GateThreshold := GateThreshold.none
  weight : ℚ := 1.0
deriving DecidableEq, Repr

/-- Dataclass `GatekeeperResult`: gatekeeper decision result. -/
structure GatekeeperResult where
  decision : DecisionType
  risk_score : ℚ
  passed_gates : List String := []
  failed_gates : List String := []
  warnings : List String := []
  metrics : QualityMetrics
  execution_time_s : ℚ := 0.0
deriving DecidableEq, Repr

/-- The fixed threshold dictionary assigned in `QualityGateSystem.__init__`. -/
structure Thresholds where
  T_mut : ℚ
  T_prop : ℚ
  T_manual : ℚ
  T_devirt : ℚ
deriving DecidableEq, Repr

/-- The literal threshold values of `QualityGateSystem.__init__`. -/
def init_thresholds : Thresholds :=
  { T_mut := 0.80, T_prop := 0.70, T_manual := 0.50, T_devirt := 0.60 }

/-- A minimal JSON value, standing for whatever `json.load` may return for an
external gate configuration file. -/
inductive JsonValue where
  | null
  | bool (b : Bool)
  | num (q : ℚ)
  | str (s : String)
  | arr (xs : List JsonValue)
  | obj (kvs : List (String × JsonValue))

/-- The three outcomes of the configuration-reading prelude of `_load_gates`:
no config path given (or the file does not exist), the open/parse raised an
exception (caught and logged), or a parsed JSON document was obtained. -/
inductive ConfigSource where
  | absent
  | unparseable (err : String)
  | parsed (config : JsonValue)

/-- The literal `default_gates` table of `QualityGateSystem._load_gates`. -/
def default_gates : List QualityGate :=
  [ { name := "mutation_testing",
      description := "Mutation testing score >= 0.80",
      required := true, threshold := GateThreshold.float 0.80, weight := 0.3 },
    { name := "sast_security",
      description := "No high/critical SAST findings",
      required := true, threshold := GateThreshold.float 0.0, weight := 0.2 },
    { name := "contract_validation",
      description := "All contracts passing provider/consumer compatibility",
      required := true, threshold := GateThreshold.float 1.0, weight := 0.2 },
    { name := "devirtualization_rate",
      description := "Devirtualization success rate >= 60%",
      required := true, threshold := GateThreshold.float 0.60, weight := 0.2 },
    { name := "build_success",
      description := "Clean build with all tests passing",
      required := true, threshold := GateThreshold.bool true, weight := 0.1 } ]

/-- Translation of `QualityGateSystem._load_gates`: whatever the configuration
source is, the returned registry is `default_gates` (the `parsed` branch reads
the config but returns the defaults; the `unparseable` branch logs a warning
and falls through to the defaults). -/
def _load_gates : ConfigSource → List QualityGate
  | ConfigSource.absent => default_gates
  | ConfigSource.unparseable _ => default_gates
  | ConfigSource.parsed _ => default_gates

/-- The state set up by `QualityGateSystem.__init__`. -/
structure QualityGateSystem where
  gates : List QualityGate
  thresholds : Thresholds
deriving Repr

/-- Translation of `QualityGateSystem.__init__`. -/
def QualityGateSystem.init (config_path : ConfigSource) : QualityGateSystem :=
  { gates := _load_gates config_path, thresholds := init_thresholds }

/-- Translation of `QualityGateSystem._calculate_risk_score`. -/
def _calculate_risk_score (metrics : QualityMetrics) : ℚ :=
  let risk_score :=
    0.2 * metrics.delta_loc +
    0.2 * metrics.novelty +
    0.2 * metrics.ext_dep_delta +
    0.2 * (1.0 - metrics.mutation) +
    0.1 * metrics.flakiness +
    0.1 * metrics.static_severity
  max 0.0 (min 1.0 risk_score)

/-- Message text of the `TypeError` Python raises for `float >= None`. -/
def typeErrorGE : String :=
  "\x27>=\x27 not supported between instances of \x27float\x27 and \x27NoneType\x27"

/-- Message text of the `TypeError` Python raises for `float <= None`. -/
def typeErrorLE : String :=
  "\x27<=\x27 not supported between instances of \x27float\x27 and \x27NoneType\x27"

/-- Python evaluation of `x >= t` for a float `x` and a threshold `t` that is
`None`, a float, or a bool: comparing with `None` raises a `TypeError`, a bool
coerces to `1`/`0`. -/
def pyGE (x : ℚ) : GateThreshold → Except String Bool
  | GateThreshold.none => Except.error typeErrorGE
  | GateThreshold.float q => Except.ok (decide (x ≥ q))
  | GateThreshold.bool b => Except.ok (decide (x ≥ (if b then (1 : ℚ) else 0)))

/-- Python evaluation of `x <= t`, analogous to `pyGE`. -/
def pyLE (x : ℚ) : GateThreshold → Except String Bool
  | GateThreshold.none => Except.error typeErrorLE
  | GateThreshold.float q => Except.ok (decide (x ≤ q))
  | GateThreshold.bool b => Except.ok (decide (x ≤ (if b then (1 : ℚ) else 0)))

/-- Python evaluation of `b == t` for a bool `b` and a threshold `t`:
`==` never raises; `b == None` is `False`; against a float, `True == 1.0`
and `False == 0.0` by numeric coercion. -/
def pyEquals (b : Bool) : GateThreshold → Bool
  | GateThreshold.none => false
  | GateThreshold.float q => decide ((if b then (1 : ℚ) else 0) = q)
  | GateThreshold.bool b2 => b == b2

/-- Rendering of a rational with three decimal places, standing for the
Python format specifier `:.3f` used in the gate diagnostic messages. -/
def fmt3 (q : ℚ) : String :=
  let scaled : Int := ⌊q * 1000 + 1 / 2⌋
  let sign := if scaled < 0 then "-" else ""
  let a := scaled.natAbs
  let ip := a / 1000
  let fp := a % 1000
  let pad := if fp < 10 then "00" else if fp < 100 then "0" else ""
  sign ++ toString ip ++ "." ++ pad ++ toString fp

/-- Rendering of a threshold value, standing for Python `str()` interpolation
of `gate.threshold` in the diagnostic messages. -/
def thresholdRepr : GateThreshold → String
  | GateThreshold.none => "None"
  | GateThreshold.float q => toString q.num ++ "/" ++ toString q.den
  | GateThreshold.bool b => if b then "True" else "False"

/-- The names the `if/elif` chain of `_evaluate_gate` recognizes. -/
def knownGateNames : List String :=
  ["mutation_testing", "sast_security", "contract_validation",
   "devirtualization_rate", "build_success"]

/-- The `try` body of `QualityGateSystem._evaluate_gate`: dispatch on the gate
name, compare the gate-specific metric field against the threshold, and build
the diagnostic message for a non-passing outcome.  A `TypeError` escaping a
comparison is an `Except.error`. -/
def _evaluate_gate_try (gate : QualityGate) (metrics : QualityMetrics) :
    Except String (Bool × Option String) :=
  if gate.name = "mutation_testing" then
    match pyGE metrics.mutation gate.threshold with
    | Except.error e => Except.error e
    | Except.ok passed =>
        Except.ok (passed, if passed then none else
          some ("Mutation score " ++ fmt3 metrics.mutation ++
                " below threshold " ++ thresholdRepr gate.threshold))
  else if gate.name = "sast_security" then
    match pyLE metrics.static_severity gate.threshold with
    | Except.error e => Except.error e
    | Except.ok passed =>
        Except.ok (passed, if passed then none else
          some ("SAST severity " ++ fmt3 metrics.static_severity ++
                " above threshold " ++ thresholdRepr gate.threshold))
  else if gate.name = "contract_validation" then
    match pyGE metrics.contract_pass_rate gate.threshold with
    | Except.error e => Except.error e
    | Except.ok passed =>
        Except.ok (passed, if passed then none else
          some ("Contract pass rate " ++ fmt3 metrics.contract_pass_rate ++
                " below threshold " ++ thresholdRepr gate.threshold))
  else if gate.name = "devirtualization_rate" then
    match pyGE metrics.devirt_success_rate gate.threshold with
    | Except.error e => Except.error e
    | Except.ok passed =>
        Except.ok (passed, if passed then none else
          some ("Devirtualization rate " ++ fmt3 metrics.devirt_success_rate ++
                " below threshold " ++ thresholdRepr gate.threshold))
  else if gate.name = "build_success" then
    let passed := pyEquals metrics.build_success gate.threshold
    Except.ok (passed, if passed then none else
      some "Build failed or tests not passing")
  else
    Except.ok (true, some ("Unknown gate \x27" ++ gate.name ++
                           "\x27 - defaulting to pass"))

/-- Translation of `QualityGateSystem._evaluate_gate`: the `try` body with the
`except` handler that marks the gate failed with a diagnostic message. -/
def _evaluate_gate (gate : QualityGate) (metrics : QualityMetrics) :
    Bool × Option String :=
  match _evaluate_gate_try gate metrics with
  | Except.ok r => r
  | Except.error e => (false, some ("Gate evaluation error: " ++ e))

/-- The gate loop of `QualityGateSystem.evaluate`, producing
`(passed_gates, failed_gates, warnings)`.  The Python loop appends to three
lists in registry order; the recursion prepends each gate's contribution to
the result for the remaining gates, which yields the same lists. -/
def evalGates (gates : List QualityGate) (metrics : QualityMetrics) :
    List String × List String × List String :=
  match gates with
  | [] => ([], [], [])
  | gate :: rest =>
    let res := _evaluate_gate gate metrics
    let tail := evalGates rest metrics
    ((if res.1 then [gate.name] else []) ++ tail.1,
     (if res.1 then [] else [gate.name]) ++ tail.2.1,
     ((if !res.1 && gate.required then
         ["Required gate \x27" ++ gate.name ++ "\x27 failed"] else []) ++
      (match res.2 with | some w => [w] | none => []) ++ tail.2.2))

/-- Translation of `QualityGateSystem._make_decision` (the unused Python
parameter `metrics` is kept). -/
def _make_decision (sys : QualityGateSystem) (risk_score : ℚ)
    (failed_gates : List String) (_metrics : QualityMetrics) : DecisionType :=
  let required_failed :=
    (sys.gates.filter
      (fun gate => decide (gate.required = true ∧ gate.name ∈ failed_gates))).map
      (fun gate => gate.name)
  if required_failed ≠ [] then
    DecisionType.AGENT_REFINE
  else if risk_score ≥ sys.thresholds.T_prop then
    DecisionType.AGENT_REFINE
  else if risk_score ≥ sys.thresholds.T_manual then
    DecisionType.MANUAL_QA
  else
    DecisionType.PROMOTE

/-- Translation of `QualityGateSystem.evaluate` (wall-clock timing fixed
to `0`). -/
def QualityGateSystem.evaluate (sys : QualityGateSystem)
    (metrics : QualityMetrics) : GatekeeperResult :=
  let risk_score := _calculate_risk_score metrics
  let outcomes := evalGates sys.gates metrics
  { decision := _make_decision sys risk_score outcomes.2.1 metrics,
    risk_score := risk_score,
    passed_gates := outcomes.1,
    failed_gates := outcomes.2.1,
    warnings := outcomes.2.2,
    metrics := metrics,
    execution_time_s := 0 }

/-- The raw (unclamped) risk sum as the specification writes it in §4.1:
`R = 0.2*delta_loc + 0.2*novelty + 0.2*ext_dep_delta + 0.2*(1 - mutation)
+ 0.1*flakiness + 0.1*static_severity`.  Stated from the spec's words for
comparison with `_calculate_risk_score`. -/
def spec_raw_risk (m : QualityMetrics) : ℚ :=
  0.2 * m.delta_loc + 0.2 * m.novelty + 0.2 * m.ext_dep_delta +
  0.2 * (1 - m.mutation) + 0.1 * m.flakiness + 0.1 * m.static_severity

/-- Two gate definitions that agree on every field except possibly `weight`:
the relation under which the weight-irrelevance claim compares registries. -/
def sameExceptWeight (g g' : QualityGate) : Prop :=
  g.name = g'.name ∧ g.description = g'.description ∧
  g.required = g'.required ∧ g.threshold = g'.threshold

/-- The passed-gates list of the gate loop is the registry-order list of names
of gates whose evaluation passes. -/
theorem evalGates_passed_eq (gates : List QualityGate) (m : QualityMetrics) :
    (evalGates gates m).1 =
      (gates.filter (fun g => (_evaluate_gate g m).1)).map (fun g => g.name) := by
  induction gates with
  | nil => rfl
  | cons g rest ih =>
    by_cases h : (_evaluate_gate g m).1 = true
    · simp [evalGates, h, List.filter_cons, ih]
    · simp only [Bool.not_eq_true] at h
      simp [evalGates, h, List.filter_cons, ih]

/-- The failed-gates list of the gate loop is the registry-order list of names
of gates whose evaluation does not pass. -/
theorem evalGates_failed_eq (gates : List QualityGate) (m : QualityMetrics) :
    (evalGates gates m).2.1 =
      (gates.filter (fun g => !(_evaluate_gate g m).1)).map (fun g => g.name) := by
  induction gates with
  | nil => rfl
  | cons g rest ih =>
    by_cases h : (_evaluate_gate g m).1 = true
    · simp [evalGates, h, List.filter_cons, ih]
    · simp only [Bool.not_eq_true] at h
      simp [evalGates, h, List.filter_cons, ih]

/-- The gate loop distributes over registry concatenation: each gate
contributes its entries independently of the other gates. -/
theorem evalGates_append (l1 l2 : List QualityGate) (m : QualityMetrics) :
    evalGates (l1 ++ l2) m =
      ((evalGates l1 m).1 ++ (evalGates l2 m).1,
       (evalGates l1 m).2.1 ++ (evalGates l2 m).2.1,
       (evalGates l1 m).2.2 ++ (evalGates l2 m).2.2) := by
  induction l1 with
  | nil => simp [evalGates]
  | cons g rest ih => simp [evalGates, ih]

/-- A warning message produced for a gate of the registry appears in the
warnings list of the gate loop. -/
theorem mem_warnings_of_mem {gates : List QualityGate} {m : QualityMetrics}
    {g : QualityGate} {w : String} (hg : g ∈ gates)
    (hw : (_evaluate_gate g m).2 = some w) :
    w ∈ (evalGates gates m).2.2 := by
  induction gates with
  | nil => cases hg
  | cons g0 rest ih =>
    rcases List.mem_cons.mp hg with h | h
    · subst h
      simp [evalGates, hw]
    · have := ih h
      simp [evalGates, List.mem_append]
      tauto

/-- In a registry with pairwise distinct gate names, two member gates with the
same name are the same gate. -/
theorem name_unique {l : List QualityGate}
    (h : l.Pairwise (fun a b => a.name ≠ b.name)) {g g' : QualityGate}
    (hg : g ∈ l) (hg' : g' ∈ l) (hn : g.name = g'.name) : g = g' := by
  induction l with
  | nil => cases hg
  | cons a t ih =>
    rcases List.pairwise_cons.mp h with ⟨ha, ht⟩
    rcases List.mem_cons.mp hg with h1 | h1 <;>
      rcases List.mem_cons.mp hg' with h2 | h2
    · rw [h1, h2]
    · subst h1
      exact absurd hn (ha _ h2)
    · subst h2
      exact absurd hn.symm (ha _ h1)
    · exact ih ht h1 h2

/-- Filtering a list by a predicate and by its negation splits its length. -/
theorem length_filter_add_length_filter_not {α : Type} (p : α → Bool)
    (l : List α) :
    (l.filter p).length + (l.filter (fun a => !(p a))).length = l.length := by
  induction l with
  | nil => rfl
  | cons a t ih =>
    by_cases h : p a = true <;> simp [List.filter_cons, h] <;> omega

/-- C1: for every metrics snapshot and every gate registry, if at least one
gate with `required = true` has a failing outcome, then `evaluate` returns
decision `AGENT_REFINE`, regardless of the risk score and thresholds. -/
theorem required_gate_failure_forces_refine (sys : QualityGateSystem)
    (m : QualityMetrics)
    (h : ∃ g ∈ sys.gates, g.required = true ∧ (_evaluate_gate g m).1 = false) :
    (QualityGateSystem.evaluate sys m).decision = DecisionType.AGENT_REFINE := by
  obtain ⟨g, hg, hreq, hfail⟩ := h
  have hmem : g.name ∈ (evalGates sys.gates m).2.1 := by
    rw [evalGates_failed_eq]
    exact List.mem_map.mpr
      ⟨g, List.mem_filter.mpr ⟨hg, by simp [hfail]⟩, rfl⟩
  have hne :
      (sys.gates.filter (fun gate =>
          decide (gate.required = true ∧
            gate.name ∈ (evalGates sys.gates m).2.1))).map
        (fun gate => gate.name) ≠ [] := by
    apply List.ne_nil_of_mem (a := g.name)
    exact List.mem_map.mpr
      ⟨g, List.mem_filter.mpr ⟨hg, by simp [hreq, hmem]⟩, rfl⟩
  show _make_decision sys (_calculate_risk_score m)
      (evalGates sys.gates m).2.1 m = DecisionType.AGENT_REFINE
  unfold _make_decision
  exact if_pos hne

/-- C1 witness: with risk score `0` (mutation kill ratio `1`, all change
ratios `0`) but `build_success = false` under the default registry, the
decision is `AGENT_REFINE`, never `PROMOTE`. -/
theorem required_gate_failure_forces_refine_witness :
    (QualityGateSystem.evaluate (QualityGateSystem.init ConfigSource.absent)
        { mutation := 1, devirt_success_rate := 0.7,
          build_success := false }).risk_score = 0 ∧
    (QualityGateSystem.evaluate (QualityGateSystem.init ConfigSource.absent)
        { mutation := 1, devirt_success_rate := 0.7,
          build_success := false }).decision = DecisionType.AGENT_REFINE := by
  constructor
  · with_unfolding_all decide
  · exact required_gate_failure_forces_refine _ _
      ⟨{ name := "build_success",
         description := "Clean build with all tests passing",
         required := true, threshold := GateThreshold.bool true,
         weight := 0.1 }, by with_unfolding_all decide,
       by with_unfolding_all decide, by with_unfolding_all decide⟩

/-- C3: the risk score equals the clamp to `[0, 1]` of the spec's weighted
sum (mutation the only inverted term); a raw sum above `1` is clamped to
exactly `1`, a raw sum below `0` to exactly `0`; and the spec's concrete
instance evaluates to exactly `0.08`. -/
theorem risk_score_matches_spec_formula (m : QualityMetrics) :
    _calculate_risk_score m = max 0 (min 1 (spec_raw_risk m)) ∧
    (spec_raw_risk m > 1 → _calculate_risk_score m = 1) ∧
    (spec_raw_risk m < 0 → _calculate_risk_score m = 0) ∧
    _calculate_risk_score
      { delta_loc := 0.1, novelty := 0.2, ext_dep_delta := 0,
        mutation := 0.9, flakiness := 0, static_severity := 0 } = 0.08 := by
  have heq : _calculate_risk_score m = max 0 (min 1 (spec_raw_risk m)) := by
    unfold _calculate_risk_score spec_raw_risk
    norm_num
  refine ⟨heq, fun h => ?_, fun h => ?_, by with_unfolding_all decide⟩
  · rw [heq, min_eq_left (le_of_lt h), max_eq_right (by norm_num)]
  · rw [heq, min_eq_right (le_of_lt (lt_trans h (by norm_num))),
        max_eq_left (le_of_lt h)]

/-- C3 witness: a raw sum of `1.2 > 1` is clamped to exactly `1`, and a raw
sum of `-2 < 0` is clamped to exactly `0`. -/
theorem risk_score_matches_spec_formula_witness :
    spec_raw_risk { delta_loc := 5 } > 1 ∧
    _calculate_risk_score { delta_loc := 5 } = 1 ∧
    spec_raw_risk { delta_loc := -10, mutation := 1 } < 0 ∧
    _calculate_risk_score { delta_loc := -10, mutation := 1 } = 0 :=
  ⟨by with_unfolding_all decide,
   (risk_score_matches_spec_formula _).2.1 (by with_unfolding_all decide),
   by with_unfolding_all decide,
   (risk_score_matches_spec_formula _).2.2.1 (by with_unfolding_all decide)⟩

/-- C5: whatever the configuration source is (absent, unreadable or
unparseable, or parsed), constructing the gate system succeeds and the
registry actually used is exactly the 5-gate default table, so an external
configuration never changes the evaluation. -/
theorem config_never_changes_registry (c : ConfigSource) :
    (QualityGateSystem.init c).gates = default_gates ∧
    default_gates.map (fun g => (g.name, g.required, g.threshold)) =
      [("mutation_testing", true, GateThreshold.float 0.80),
       ("sast_security", true, GateThreshold.float 0.0),
       ("contract_validation", true, GateThreshold.float 1.0),
       ("devirtualization_rate", true, GateThreshold.float 0.60),
       ("build_success", true, GateThreshold.bool true)] ∧
    (∀ m, QualityGateSystem.evaluate (QualityGateSystem.init c) m =
        QualityGateSystem.evaluate (QualityGateSystem.init ConfigSource.absent) m) := by
  refine ⟨?_, by with_unfolding_all decide, fun m => ?_⟩ <;> cases c <;> rfl

/-- C2: in every evaluation (under the constructor's fixed thresholds and the
spec's registry invariant of pairwise distinct gate names) in which no
required gate fails, the decision is determined solely by the risk score with
inclusive lower bounds: `risk_score >= 0.70` yields `AGENT_REFINE`,
`0.50 <= risk_score < 0.70` yields `MANUAL_QA`, and `risk_score < 0.50`
yields `PROMOTE`. -/
theorem risk_thresholds_decide_decision (gates : List QualityGate)
    (m : QualityMetrics)
    (hnd : gates.Pairwise (fun a b => a.name ≠ b.name))
    (hreq : ∀ g ∈ gates, g.required = true → (_evaluate_gate g m).1 = true) :
    ((QualityGateSystem.evaluate ⟨gates, init_thresholds⟩ m).risk_score ≥ 0.70 →
       (QualityGateSystem.evaluate ⟨gates, init_thresholds⟩ m).decision =
         DecisionType.AGENT_REFINE) ∧
    (0.50 ≤ (QualityGateSystem.evaluate ⟨gates, init_thresholds⟩ m).risk_score ∧
       (QualityGateSystem.evaluate ⟨gates, init_thresholds⟩ m).risk_score < 0.70 →
       (QualityGateSystem.evaluate ⟨gates, init_thresholds⟩ m).decision =
         DecisionType.MANUAL_QA) ∧
    ((QualityGateSystem.evaluate ⟨gates, init_thresholds⟩ m).risk_score < 0.50 →
       (QualityGateSystem.evaluate ⟨gates, init_thresholds⟩ m).decision =
         DecisionType.PROMOTE) := by
  have hempty : (gates.filter (fun gate =>
      decide (gate.required = true ∧
        gate.name ∈ (evalGates gates m).2.1))) = [] := by
    rw [List.filter_eq_nil_iff]
    intro g hg
    simp only [decide_eq_true_eq, not_and]
    intro hgreq hmem
    rw [evalGates_failed_eq] at hmem
    obtain ⟨g', hg'f, hname⟩ := List.mem_map.mp hmem
    obtain ⟨hg'mem, hfail⟩ := List.mem_filter.mp hg'f
    have hgg : g' = g := name_unique hnd hg'mem hg hname
    subst hgg
    rw [hreq g' hg'mem hgreq] at hfail
    simp at hfail
  have hrs : (QualityGateSystem.evaluate ⟨gates, init_thresholds⟩ m).risk_score =
      _calculate_risk_score m := rfl
  have hdec : (QualityGateSystem.evaluate ⟨gates, init_thresholds⟩ m).decision =
      (if _calculate_risk_score m ≥ (0.70 : ℚ) then DecisionType.AGENT_REFINE
       else if _calculate_risk_score m ≥ (0.50 : ℚ) then DecisionType.MANUAL_QA
       else DecisionType.PROMOTE) := by
    show _make_decision ⟨gates, init_thresholds⟩ (_calculate_risk_score m)
        (evalGates gates m).2.1 m = _
    unfold _make_decision
    rw [hempty]
    simp [init_thresholds]
  rw [hrs, hdec]
  refine ⟨fun h => ?_, fun h => ?_, fun h => ?_⟩
  · rw [if_pos h]
  · rw [if_neg (not_le.mpr h.2), if_pos h.1]
  · rw [if_neg (not_le.mpr (lt_of_lt_of_le h (by norm_num))),
        if_neg (not_le.mpr h)]

/-- C2 witness: under the default registry with all required gates passing, a
risk score of exactly `0.50` yields `MANUAL_QA` and a risk score of exactly
`0.70` yields `AGENT_REFINE`. -/
theorem risk_thresholds_decide_decision_witness :
    (QualityGateSystem.evaluate ⟨default_gates, init_thresholds⟩
        { delta_loc := 1, novelty := 1, ext_dep_delta := 0.5, mutation := 1,
          devirt_success_rate := 0.7 }).risk_score = 0.50 ∧
    (QualityGateSystem.evaluate ⟨default_gates, init_thresholds⟩
        { delta_loc := 1, novelty := 1, ext_dep_delta := 0.5, mutation := 1,
          devirt_success_rate := 0.7 }).decision = DecisionType.MANUAL_QA ∧
    (QualityGateSystem.evaluate ⟨default_gates, init_thresholds⟩
        { delta_loc := 1, novelty := 1, ext_dep_delta := 1, mutation := 1,
          flakiness := 1, devirt_success_rate := 0.7 }).risk_score = 0.70 ∧
    (QualityGateSystem.evaluate ⟨default_gates, init_thresholds⟩
        { delta_loc := 1, novelty := 1, ext_dep_delta := 1, mutation := 1,
          flakiness := 1, devirt_success_rate := 0.7 }).decision =
      DecisionType.AGENT_REFINE := by
  refine ⟨by with_unfolding_all decide, ?_, by with_unfolding_all decide, ?_⟩
  · exact (risk_thresholds_decide_decision default_gates _
      (by with_unfolding_all decide) (by with_unfolding_all decide)).2.1
      (by with_unfolding_all decide)
  · exact (risk_thresholds_decide_decision default_gates _
      (by with_unfolding_all decide) (by with_unfolding_all decide)).1
      (by with_unfolding_all decide)

/-- C4: with a well-formed threshold, gate evaluation uses the gate-specific
field and operator: `mutation_testing` passes iff `mutation >= threshold`,
`sast_security` iff `static_severity <= threshold`, `contract_validation` iff
`contract_pass_rate >= threshold`, `devirtualization_rate` iff
`devirt_success_rate >= threshold`, and `build_success` iff
`build_success == threshold` (a boolean). -/
theorem gate_comparison_semantics (g : QualityGate) (m : QualityMetrics)
    (q : ℚ) (b : Bool) :
    (g.name = "mutation_testing" → g.threshold = GateThreshold.float q →
       ((_evaluate_gate g m).1 = true ↔ m.mutation ≥ q)) ∧
    (g.name = "sast_security" → g.threshold = GateThreshold.float q →
       ((_evaluate_gate g m).1 = true ↔ m.static_severity ≤ q)) ∧
    (g.name = "contract_validation" → g.threshold = GateThreshold.float q →
       ((_evaluate_gate g m).1 = true ↔ m.contract_pass_rate ≥ q)) ∧
    (g.name = "devirtualization_rate" → g.threshold = GateThreshold.float q →
       ((_evaluate_gate g m).1 = true ↔ m.devirt_success_rate ≥ q)) ∧
    (g.name = "build_success" → g.threshold = GateThreshold.bool b →
       ((_evaluate_gate g m).1 = true ↔ m.build_success = b)) := by
  obtain ⟨n, d, r, t, w⟩ := g
  refine ⟨?_, ?_, ?_, ?_, ?_⟩ <;> rintro rfl rfl <;>
    simp [_evaluate_gate, _evaluate_gate_try, pyGE, pyLE, pyEquals]

/-- C4 witness: at concrete inputs, `mutation_testing` passes with
`mutation = 0.85 >= 0.80` and `build_success` fails with measured `false`
against boolean threshold `true`. -/
theorem gate_comparison_semantics_witness :
    (_evaluate_gate
       { name := "mutation_testing", description := "Mutation testing score >= 0.80",
         required := true, threshold := GateThreshold.float 0.80, weight := 0.3 }
       { mutation := 0.85 }).1 = true ∧
    ¬ (_evaluate_gate
       { name := "build_success", description := "Clean build with all tests passing",
         required := true, threshold := GateThreshold.bool true, weight := 0.1 }
       { build_success := false }).1 = true := by
  constructor
  · exact ((gate_comparison_semantics _ { mutation := 0.85 } 0.80 true).1
      rfl rfl).mpr (by with_unfolding_all decide)
  · intro hpass
    have h := ((gate_comparison_semantics _ { build_success := false } 0.80
      true).2.2.2.2 rfl rfl).mp hpass
    exact absurd h (by with_unfolding_all decide)

/-- C6: a gate whose name is not one of the five known names never makes
evaluation fail: its outcome is a pass whose message records the unrecognized
name, the gate's name appears in `passed_gates`, and the message appears in
`warnings` of the result. -/
theorem unknown_gate_auto_pass (gates : List QualityGate) (m : QualityMetrics)
    (g : QualityGate) (hg : g ∈ gates) (hunk : g.name ∉ knownGateNames) :
    (_evaluate_gate g m).1 = true ∧
    (_evaluate_gate g m).2 =
      some ("Unknown gate \x27" ++ g.name ++ "\x27 - defaulting to pass") ∧
    g.name ∈ (QualityGateSystem.evaluate ⟨gates, init_thresholds⟩ m).passed_gates ∧
    ("Unknown gate \x27" ++ g.name ++ "\x27 - defaulting to pass") ∈
      (QualityGateSystem.evaluate ⟨gates, init_thresholds⟩ m).warnings := by
  simp only [knownGateNames, List.mem_cons, List.not_mem_nil, or_false,
    not_or] at hunk
  obtain ⟨h1, h2, h3, h4, h5⟩ := hunk
  have hev : _evaluate_gate g m =
      (true, some ("Unknown gate \x27" ++ g.name ++
        "\x27 - defaulting to pass")) := by
    unfold _evaluate_gate _evaluate_gate_try
    rw [if_neg h1, if_neg h2, if_neg h3, if_neg h4, if_neg h5]
  refine ⟨by rw [hev], by rw [hev], ?_, ?_⟩
  · show g.name ∈ (evalGates gates m).1
    rw [evalGates_passed_eq]
    exact List.mem_map.mpr
      ⟨g, List.mem_filter.mpr ⟨hg, by rw [hev]⟩, rfl⟩
  · exact mem_warnings_of_mem hg (by rw [hev])

/-- C6 witness: a registry containing the unrecognized gate `future_gate`
evaluates without failure, with `future_gate` in `passed_gates` and the
corresponding message in `warnings`. -/
theorem unknown_gate_auto_pass_witness :
    (_evaluate_gate { name := "future_gate", description := "reserved" }
      {}).1 = true ∧
    (_evaluate_gate { name := "future_gate", description := "reserved" }
      {}).2 = some ("Unknown gate \x27future_gate\x27 - defaulting to pass") ∧
    ("future_gate" : String) ∈
      (QualityGateSystem.evaluate
        ⟨[{ name := "future_gate", description := "reserved" }],
         init_thresholds⟩ {}).passed_gates ∧
    ("Unknown gate \x27future_gate\x27 - defaulting to pass") ∈
      (QualityGateSystem.evaluate
        ⟨[{ name := "future_gate", description := "reserved" }],
         init_thresholds⟩ {}).warnings :=
  unknown_gate_auto_pass [{ name := "future_gate", description := "reserved" }]
    {} { name := "future_gate", description := "reserved" }
    (List.mem_singleton.mpr rfl) (by decide)

/-- C7: a known gate whose evaluation raises an internal error (here a
malformed threshold making the comparison undefined) has a failed outcome
with a diagnostic message, and every other gate's contribution to the loop is
computed exactly as it would be without the offending gate. -/
theorem known_gate_error_marks_failed (g : QualityGate) (m : QualityMetrics)
    (e : String) (_hk : g.name ∈ knownGateNames)
    (herr : _evaluate_gate_try g m = Except.error e) :
    _evaluate_gate g m = (false, some ("Gate evaluation error: " ++ e)) ∧
    ∀ l1 l2 : List QualityGate,
      evalGates (l1 ++ g :: l2) m =
        ((evalGates l1 m).1 ++ (evalGates [g] m).1 ++ (evalGates l2 m).1,
         (evalGates l1 m).2.1 ++ (evalGates [g] m).2.1 ++ (evalGates l2 m).2.1,
         (evalGates l1 m).2.2 ++ (evalGates [g] m).2.2 ++
           (evalGates l2 m).2.2) := by
  constructor
  · unfold _evaluate_gate
    rw [herr]
  · intro l1 l2
    have h1 := evalGates_append l1 (g :: l2) m
    have h2 := evalGates_append [g] l2 m
    rw [List.singleton_append] at h2
    rw [h1, h2]
    simp [List.append_assoc]

/-- C7 witness: the known gate `mutation_testing` with a `None` threshold
fails with the diagnostic produced from the `TypeError`, even though the
measured mutation score is high. -/
theorem known_gate_error_marks_failed_witness :
    _evaluate_gate
      { name := "mutation_testing", description := "broken threshold" }
      { mutation := 0.95 } =
    (false, some ("Gate evaluation error: " ++ typeErrorGE)) :=
  (known_gate_error_marks_failed
    { name := "mutation_testing", description := "broken threshold" }
    { mutation := 0.95 } typeErrorGE (by decide) rfl).1

/-- C8: for a known gate, a non-passing outcome always carries a message, a
passing outcome carries none; for the four numeric gates the failing message
spells out the measured value and the threshold it missed, and for
`build_success` it is the fixed build diagnostic. -/
theorem known_gate_message_discipline (g : QualityGate) (m : QualityMetrics)
    (hk : g.name ∈ knownGateNames) :
    ((_evaluate_gate g m).1 = true → (_evaluate_gate g m).2 = none) ∧
    ((_evaluate_gate g m).1 = false → (_evaluate_gate g m).2 ≠ none) ∧
    (∀ q, g.threshold = GateThreshold.float q →
      (_evaluate_gate g m).1 = false →
      ((g.name = "mutation_testing" → (_evaluate_gate g m).2 =
         some ("Mutation score " ++ fmt3 m.mutation ++ " below threshold " ++
               thresholdRepr (GateThreshold.float q))) ∧
       (g.name = "sast_security" → (_evaluate_gate g m).2 =
         some ("SAST severity " ++ fmt3 m.static_severity ++
               " above threshold " ++ thresholdRepr (GateThreshold.float q))) ∧
       (g.name = "contract_validation" → (_evaluate_gate g m).2 =
         some ("Contract pass rate " ++ fmt3 m.contract_pass_rate ++
               " below threshold " ++ thresholdRepr (GateThreshold.float q))) ∧
       (g.name = "devirtualization_rate" → (_evaluate_gate g m).2 =
         some ("Devirtualization rate " ++ fmt3 m.devirt_success_rate ++
               " below threshold " ++ thresholdRepr (GateThreshold.float q))))) ∧
    (g.name = "build_success" → (_evaluate_gate g m).1 = false →
      (_evaluate_gate g m).2 = some "Build failed or tests not passing") := by
  obtain ⟨n, d, r, t, w⟩ := g
  simp only [knownGateNames, List.mem_cons, List.not_mem_nil, or_false] at hk
  rcases hk with rfl | rfl | rfl | rfl | rfl
  · cases t with
    | none => simp [_evaluate_gate, _evaluate_gate_try, pyGE]
    | float q0 =>
      by_cases hc : m.mutation ≥ q0 <;>
        simp [_evaluate_gate, _evaluate_gate_try, pyGE, hc]
    | bool b0 =>
      by_cases hc : m.mutation ≥ (if b0 then (1 : ℚ) else 0) <;>
        simp [_evaluate_gate, _evaluate_gate_try, pyGE, hc]
  · cases t with
    | none => simp [_evaluate_gate, _evaluate_gate_try, pyLE]
    | float q0 =>
      by_cases hc : m.static_severity ≤ q0 <;>
        simp [_evaluate_gate, _evaluate_gate_try, pyLE, hc]
    | bool b0 =>
      by_cases hc : m.static_severity ≤ (if b0 then (1 : ℚ) else 0) <;>
        simp [_evaluate_gate, _evaluate_gate_try, pyLE, hc]
  · cases t with
    | none => simp [_evaluate_gate, _evaluate_gate_try, pyGE]
    | float q0 =>
      by_cases hc : m.contract_pass_rate ≥ q0 <;>
        simp [_evaluate_gate, _evaluate_gate_try, pyGE, hc]
    | bool b0 =>
      by_cases hc : m.contract_pass_rate ≥ (if b0 then (1 : ℚ) else 0) <;>
        simp [_evaluate_gate, _evaluate_gate_try, pyGE, hc]
  · cases t with
    | none => simp [_evaluate_gate, _evaluate_gate_try, pyGE]
    | float q0 =>
      by_cases hc : m.devirt_success_rate ≥ q0 <;>
        simp [_evaluate_gate, _evaluate_gate_try, pyGE, hc]
    | bool b0 =>
      by_cases hc : m.devirt_success_rate ≥ (if b0 then (1 : ℚ) else 0) <;>
        simp [_evaluate_gate, _evaluate_gate_try, pyGE, hc]
  · cases t with
    | none => simp [_evaluate_gate, _evaluate_gate_try, pyEquals]
    | float q0 =>
      by_cases hc : (if m.build_success then (1 : ℚ) else 0) = q0 <;>
        simp [_evaluate_gate, _evaluate_gate_try, pyEquals, hc]
    | bool b0 =>
      by_cases hc : m.build_success = b0 <;>
        simp [_evaluate_gate, _evaluate_gate_try, pyEquals, hc]

/-- C8 witness: the `mutation_testing` gate failing at measured `0.5` against
threshold `0.8` carries the diagnostic naming both, and the same gate passing
at `0.9` carries no message. -/
theorem known_gate_message_discipline_witness :
    (_evaluate_gate
       { name := "mutation_testing", description := "Mutation testing score >= 0.80",
         required := true, threshold := GateThreshold.float 0.80, weight := 0.3 }
       { mutation := 0.5 }).2 =
      some ("Mutation score " ++ fmt3 (0.5 : ℚ) ++ " below threshold " ++
            thresholdRepr (GateThreshold.float 0.80)) ∧
    (_evaluate_gate
       { name := "mutation_testing", description := "Mutation testing score >= 0.80",
         required := true, threshold := GateThreshold.float 0.80, weight := 0.3 }
       { mutation := 0.9 }).2 = none := by
  constructor
  · exact (((known_gate_message_discipline _ { mutation := 0.5 }
      (by decide)).2.2.1 0.80 rfl (by with_unfolding_all decide)).1 rfl)
  · exact ((known_gate_message_discipline _ { mutation := 0.9 }
      (by decide)).1 (by with_unfolding_all decide))

/-- Gate evaluation reads only the name and threshold of a gate definition:
two gates agreeing on everything but `weight` evaluate identically. -/
theorem evaluate_gate_ignores_weight (g g' : QualityGate)
    (h : sameExceptWeight g g') (m : QualityMetrics) :
    _evaluate_gate g m = _evaluate_gate g' m := by
  obtain ⟨h1, _h2, _h3, h4⟩ := h
  unfold _evaluate_gate _evaluate_gate_try
  rw [h1, h4]

/-- The gate loop is unchanged when every gate's weight is changed. -/
theorem evalGates_ignores_weight {l l' : List QualityGate}
    (m : QualityMetrics) (h : List.Forall₂ sameExceptWeight l l') :
    evalGates l m = evalGates l' m := by
  induction h with
  | nil => rfl
  | @cons a b l1 l2 hab hrest ih =>
    simp only [evalGates]
    rw [evaluate_gate_ignores_weight a b hab m, hab.1, hab.2.2.1, ih]

/-- The decision is unchanged when every gate's weight is changed. -/
theorem make_decision_ignores_weight {l l' : List QualityGate}
    (h : List.Forall₂ sameExceptWeight l l') (th : Thresholds) (rs : ℚ)
    (fg : List String) (m : QualityMetrics) :
    _make_decision ⟨l, th⟩ rs fg m = _make_decision ⟨l', th⟩ rs fg m := by
  have hrf : (l.filter (fun gate =>
        decide (gate.required = true ∧ gate.name ∈ fg))).map
        (fun gate => gate.name) =
      (l'.filter (fun gate =>
        decide (gate.required = true ∧ gate.name ∈ fg))).map
        (fun gate => gate.name) := by
    induction h with
    | nil => rfl
    | @cons a b l1 l2 hab hrest ih =>
      simp only [List.filter_cons]
      rw [hab.1, hab.2.2.1]
      by_cases hcond : (b.required = true ∧ b.name ∈ fg)
      · rw [if_pos (decide_eq_true hcond), if_pos (decide_eq_true hcond),
          List.map_cons, List.map_cons, hab.1, ih]
      · rw [if_neg (fun hd => hcond (of_decide_eq_true hd)),
          if_neg (fun hd => hcond (of_decide_eq_true hd)), ih]
  simp only [_make_decision]
  rw [hrf]

/-- C9: the `weight` field of a gate definition is never consumed: two runs of
`evaluate` on the same metrics with registries identical except for weights
produce the same decision, risk score, passed gates, failed gates, and
warnings. -/
theorem weight_never_consumed (l l' : List QualityGate) (m : QualityMetrics)
    (h : List.Forall₂ sameExceptWeight l l') :
    (QualityGateSystem.evaluate ⟨l, init_thresholds⟩ m).decision =
      (QualityGateSystem.evaluate ⟨l', init_thresholds⟩ m).decision ∧
    (QualityGateSystem.evaluate ⟨l, init_thresholds⟩ m).risk_score =
      (QualityGateSystem.evaluate ⟨l', init_thresholds⟩ m).risk_score ∧
    (QualityGateSystem.evaluate ⟨l, init_thresholds⟩ m).passed_gates =
      (QualityGateSystem.evaluate ⟨l', init_thresholds⟩ m).passed_gates ∧
    (QualityGateSystem.evaluate ⟨l, init_thresholds⟩ m).failed_gates =
      (QualityGateSystem.evaluate ⟨l', init_thresholds⟩ m).failed_gates ∧
    (QualityGateSystem.evaluate ⟨l, init_thresholds⟩ m).warnings =
      (QualityGateSystem.evaluate ⟨l', init_thresholds⟩ m).warnings := by
  have hout := evalGates_ignores_weight m h
  refine ⟨?_, rfl, ?_, ?_, ?_⟩
  · show _make_decision ⟨l, init_thresholds⟩ (_calculate_risk_score m)
        (evalGates l m).2.1 m =
      _make_decision ⟨l', init_thresholds⟩ (_calculate_risk_score m)
        (evalGates l' m).2.1 m
    rw [hout]
    exact make_decision_ignores_weight h init_thresholds _ _ m
  · show (evalGates l m).1 = (evalGates l' m).1
    rw [hout]
  · show (evalGates l m).2.1 = (evalGates l' m).2.1
    rw [hout]
  · show (evalGates l m).2.2 = (evalGates l' m).2.2
    rw [hout]

/-- C9 witness: the default registry and the same registry with every weight
set to `1` produce identical results on a snapshot with a failing mutation
gate. -/
theorem weight_never_consumed_witness :
    (QualityGateSystem.evaluate ⟨default_gates, init_thresholds⟩
        { mutation := 0.5, devirt_success_rate := 0.7 }).decision =
      (QualityGateSystem.evaluate
        ⟨default_gates.map (fun g => { g with weight := 1 }),
         init_thresholds⟩
        { mutation := 0.5, devirt_success_rate := 0.7 }).decision ∧
    (QualityGateSystem.evaluate ⟨default_gates, init_thresholds⟩
        { mutation := 0.5, devirt_success_rate := 0.7 }).risk_score =
      (QualityGateSystem.evaluate
        ⟨default_gates.map (fun g => { g with weight := 1 }),
         init_thresholds⟩
        { mutation := 0.5, devirt_success_rate := 0.7 }).risk_score ∧
    (QualityGateSystem.evaluate ⟨default_gates, init_thresholds⟩
        { mutation := 0.5, devirt_success_rate := 0.7 }).passed_gates =
      (QualityGateSystem.evaluate
        ⟨default_gates.map (fun g => { g with weight := 1 }),
         init_thresholds⟩
        { mutation := 0.5, devirt_success_rate := 0.7 }).passed_gates ∧
    (QualityGateSystem.evaluate ⟨default_gates, init_thresholds⟩
        { mutation := 0.5, devirt_success_rate := 0.7 }).failed_gates =
      (QualityGateSystem.evaluate
        ⟨default_gates.map (fun g => { g with weight := 1 }),
         init_thresholds⟩
        { mutation := 0.5, devirt_success_rate := 0.7 }).failed_gates ∧
    (QualityGateSystem.evaluate ⟨default_gates, init_thresholds⟩
        { mutation := 0.5, devirt_success_rate := 0.7 }).warnings =
      (QualityGateSystem.evaluate
        ⟨default_gates.map (fun g => { g with weight := 1 }),
         init_thresholds⟩
        { mutation := 0.5, devirt_success_rate := 0.7 }).warnings :=
  weight_never_consumed _ _ _
    (List.Forall₂.cons ⟨rfl, rfl, rfl, rfl⟩
      (List.Forall₂.cons ⟨rfl, rfl, rfl, rfl⟩
        (List.Forall₂.cons ⟨rfl, rfl, rfl, rfl⟩
          (List.Forall₂.cons ⟨rfl, rfl, rfl, rfl⟩
            (List.Forall₂.cons ⟨rfl, rfl, rfl, rfl⟩ List.Forall₂.nil)))))

/-- C10: each gate of the registry lands in exactly one of `passed_gates` and
`failed_gates`, in registry order: the two lists are the registry-order name
lists of passing and failing gates, their lengths sum to the registry size,
and (under the spec's distinct-names invariant) they are disjoint. -/
theorem evaluate_partitions_registry (gates : List QualityGate)
    (m : QualityMetrics)
    (hnd : gates.Pairwise (fun a b => a.name ≠ b.name)) :
    (QualityGateSystem.evaluate ⟨gates, init_thresholds⟩ m).passed_gates =
      (gates.filter (fun g => (_evaluate_gate g m).1)).map
        (fun g => g.name) ∧
    (QualityGateSystem.evaluate ⟨gates, init_thresholds⟩ m).failed_gates =
      (gates.filter (fun g => !(_evaluate_gate g m).1)).map
        (fun g => g.name) ∧
    (QualityGateSystem.evaluate ⟨gates, init_thresholds⟩ m).passed_gates.length +
      (QualityGateSystem.evaluate ⟨gates, init_thresholds⟩ m).failed_gates.length =
      gates.length ∧
    ∀ n, ¬(n ∈ (QualityGateSystem.evaluate
            ⟨gates, init_thresholds⟩ m).passed_gates ∧
          n ∈ (QualityGateSystem.evaluate
            ⟨gates, init_thresholds⟩ m).failed_gates) := by
  have hp : (QualityGateSystem.evaluate ⟨gates, init_thresholds⟩ m).passed_gates =
      (evalGates gates m).1 := rfl
  have hf : (QualityGateSystem.evaluate ⟨gates, init_thresholds⟩ m).failed_gates =
      (evalGates gates m).2.1 := rfl
  refine ⟨?_, ?_, ?_, ?_⟩
  · rw [hp, evalGates_passed_eq]
  · rw [hf, evalGates_failed_eq]
  · rw [hp, hf, evalGates_passed_eq, evalGates_failed_eq, List.length_map,
      List.length_map]
    exact length_filter_add_length_filter_not _ _
  · rintro n ⟨h1, h2⟩
    rw [hp, evalGates_passed_eq] at h1
    rw [hf, evalGates_failed_eq] at h2
    obtain ⟨g1, hg1, hn1⟩ := List.mem_map.mp h1
    obtain ⟨g2, hg2, hn2⟩ := List.mem_map.mp h2
    obtain ⟨hg1m, hp1⟩ := List.mem_filter.mp hg1
    obtain ⟨hg2m, hp2⟩ := List.mem_filter.mp hg2
    have hgg : g1 = g2 := name_unique hnd hg1m hg2m (hn1.trans hn2.symm)
    subst hgg
    rw [hp1] at hp2
    simp at hp2

/-- C10 witness: on the all-defaults snapshot the default registry partitions
into three passing and two failing gates, in registry order, and
`build_success` is not in both lists. -/
theorem evaluate_partitions_registry_witness :
    (QualityGateSystem.evaluate ⟨default_gates, init_thresholds⟩
        {}).passed_gates =
      ["sast_security", "contract_validation", "build_success"] ∧
    (QualityGateSystem.evaluate ⟨default_gates, init_thresholds⟩
        {}).failed_gates =
      ["mutation_testing", "devirtualization_rate"] ∧
    (QualityGateSystem.evaluate ⟨default_gates, init_thresholds⟩
        {}).passed_gates.length +
      (QualityGateSystem.evaluate ⟨default_gates, init_thresholds⟩
        {}).failed_gates.length = 5 ∧
    ¬(("build_success" : String) ∈
        (QualityGateSystem.evaluate ⟨default_gates, init_thresholds⟩
          {}).passed_gates ∧
      ("build_success" : String) ∈
        (QualityGateSystem.evaluate ⟨default_gates, init_thresholds⟩
          {}).failed_gates) := by
  refine ⟨by with_unfolding_all decide, by with_unfolding_all decide, ?_, ?_⟩
  · exact (evaluate_partitions_registry default_gates {}
      (by with_unfolding_all decide)).2.2.1
  · exact (evaluate_partitions_registry default_gates {}
      (by with_unfolding_all decide)).2.2.2 "build_success"

end Gatekeeper
